import Mathlib

/-!
Shallow embedding of the conversation quality grading engine of
`my_local_ai` (`logs.py`, class `LogAnalyzer`).

Python floats are modelled as rationals (`ℚ`); calls into Python's `re`
library (`re.search pattern text`) are modelled by an oracle parameter
`research : String → String → Bool` supplied to every function that
consults regular expressions — the engine's own logic (splitting,
counting, clamping, aggregation) is embedded concretely.
-/

/-- Python `str.lower()` (ASCII case folding suffices for this corpus). -/
def pyLower (s : String) : String := String.mk (s.data.map Char.toLower)

/-- Auxiliary for `pySplit`: the first list is the remaining input, the
second accumulates the current word's characters in reverse. -/
def pySplitAux : List Char → List Char → List String
  | [], cur => if cur = [] then [] else [String.mk cur.reverse]
  | c :: cs, cur =>
    if c.isWhitespace then
      if cur = [] then pySplitAux cs []
      else String.mk cur.reverse :: pySplitAux cs []
    else pySplitAux cs (c :: cur)

/-- Python `str.split()` with no argument: split on whitespace runs,
dropping empty fragments. -/
def pySplit (s : String) : List String := pySplitAux s.data []

/-- Auxiliary for `pySplitOnChar`, accumulating the current fragment in
reverse. -/
def pySplitOnCharAux (sep : Char) : List Char → List Char → List String
  | [], cur => [String.mk cur.reverse]
  | c :: cs, cur =>
    if c = sep then String.mk cur.reverse :: pySplitOnCharAux sep cs []
    else pySplitOnCharAux sep cs (c :: cur)

/-- Python `s.split(sep)` for a one-character separator: fragments
between separators, empties kept. -/
def pySplitOnChar (sep : Char) (s : String) : List String :=
  pySplitOnCharAux sep s.data []

/-- Python `str.strip()`: remove leading and trailing whitespace. -/
def pyStrip (s : String) : String :=
  String.mk (((s.data.dropWhile Char.isWhitespace).reverse.dropWhile
    Char.isWhitespace).reverse)

/-- Python `s.startswith(pre)`. -/
def pyStartsWith (s pre : String) : Bool := pre.data.isPrefixOf s.data

/-- Python `s[n:]`: drop the first `n` characters. -/
def pyDrop (s : String) (n : Nat) : String := String.mk (s.data.drop n)

/-- Python `len(s)`: number of characters. -/
def pyLen (s : String) : Nat := s.data.length

/-- Python `" ".join(ws)`. -/
def joinSpace (ws : List String) : String :=
  String.mk (List.intercalate [' '] (ws.map String.data))

/-- Auxiliary for `pyCount`: number of non-overlapping occurrences of
`needle` in the remaining character list, scanning left to right.  The
fuel argument is initialised to the haystack's length; every step
consumes at least one character and exactly one unit of fuel, so the
fuel never runs out before the haystack does. -/
def countSubAux (needle : List Char) : Nat → List Char → Nat
  | _, [] => 0
  | 0, _ => 0
  | fuel + 1, c :: rest =>
    if needle ≠ [] ∧ needle.isPrefixOf (c :: rest) then
      1 + countSubAux needle fuel (rest.drop (needle.length - 1))
    else
      countSubAux needle fuel rest

/-- Python `s.count(sub)`: non-overlapping substring occurrences. -/
def pyCount (s sub : String) : Nat :=
  countSubAux sub.data s.data.length s.data

/-- Arithmetic mean of a list of rationals (`statistics.mean`);
division by zero on the empty list yields `0`. -/
def mean (l : List ℚ) : ℚ := l.sum / l.length

/-- Round a rational to the nearest integer, ties to even
(the rounding used by Python's built-in `round`). -/
def roundHalfEven (q : ℚ) : ℤ :=
  let f := ⌊q⌋
  let r := q - f
  if r < 1/2 then f
  else if 1/2 < r then f + 1
  else if f % 2 = 0 then f else f + 1

/-- Python `round(q, 3)`. -/
def round3 (q : ℚ) : ℚ := (roundHalfEven (q * 1000) : ℚ) / 1000

/-- Insert into an ascending-sorted list (used for the median). -/
def insertAsc (x : ℚ) : List ℚ → List ℚ
  | [] => [x]
  | y :: ys => if x ≤ y then x :: y :: ys else y :: insertAsc x ys

/-- Ascending insertion sort on rationals. -/
def sortAsc : List ℚ → List ℚ
  | [] => []
  | x :: xs => insertAsc x (sortAsc xs)

/-- Python `statistics.median`: middle element of the sorted list for odd
length, mean of the two middle elements for even length. -/
def pyMedian (l : List ℚ) : ℚ :=
  let s := sortAsc l
  let n := s.length
  if n % 2 = 1 then s.getD (n / 2) 0
  else (s.getD (n / 2 - 1) 0 + s.getD (n / 2) 0) / 2

/-- `LogAnalyzer._has_repetition`: at least 4 words, and either some
3-word window phrase occurs more than twice in the lowercased text
(Python `str.count`, non-overlapping), or some word longer than 3
characters accounts for more than 20% of the word count.  The source
builds the word counts incrementally; the check fires exactly when the
final count of some such word exceeds the fixed threshold
`len(words) * 0.2`, i.e. when `5 * count > len(words)`. -/
def has_repetition (text : String) : Bool :=
  let lowtext := pyLower text
  let words := pySplit lowtext
  if words.length < 4 then false
  else
    let phraseHit := (List.range (words.length - 2)).any fun i =>
      pyCount lowtext (joinSpace ((words.drop i).take 3)) > 2
    let wordHit := words.any fun w =>
      decide (pyLen w > 3) && decide (5 * words.count w > words.length)
    phraseHit || wordHit

/-- Parser state of `LogAnalyzer._extract_conversations`: the pending
user turn (`current_user`), the pending response (`current_ai`) and the
pairs emitted so far.  Python's `None` is `none`; Python truthiness of
the slot (`if current_user:`) also rejects the empty string. -/
structure ParseState where
  current_user : Option String
  current_ai : Option String
  conversations : List (String × String)
  deriving Repr, DecidableEq

/-- Python truthiness of an optional string: set and non-empty. -/
def truthy : Option String → Bool
  | none => false
  | some s => s ≠ ""

/-- One iteration of the line loop of
`LogAnalyzer._extract_conversations`. -/
def process_line (st : ParseState) (rawline : String) : ParseState :=
  let line := pyStrip rawline
  let st1 :=
    if pyStartsWith line "You: " then
      { st with current_user := some (pyStrip (pyDrop line 5)), current_ai := none }
    else if pyStartsWith line "[llama.cpp-stdout] " then
      if truthy st.current_user then
        { st with current_ai := some (pyStrip (pyDrop line 19)) }
      else st
    else if pyStartsWith line "AI: " then
      if truthy st.current_user then
        { st with current_ai := some (pyStrip (pyDrop line 4)) }
      else st
    else st
  if truthy st1.current_user ∧ truthy st1.current_ai then
    { current_user := none
      current_ai := none
      conversations :=
        if pyLen (pyStrip ((st1.current_ai).getD "")) > 3 then
          st1.conversations ++ [((st1.current_user).getD "", (st1.current_ai).getD "")]
        else st1.conversations }
  else st1

/-- `LogAnalyzer._extract_conversations`: fold the line loop over the
lines of the transcript, starting from empty slots. -/
def extract_conversations (log_content : String) : List (String × String) :=
  ((pySplitOnChar '\n' log_content).foldl process_line
    ⟨none, none, []⟩).conversations

/-- Pattern group `direct_response` of `good_indicators`. -/
def good_direct_response : List String :=
  ["thank you", "yes", "no", "i (?:am|can|will|don\x27t)", "here (?:is|are)"]

/-- Pattern group `helpful_tone` of `good_indicators`. -/
def good_helpful_tone : List String :=
  ["how can i help", "i\x27d be happy", "certainly", "of course"]

/-- Pattern group `coherent_structure` of `good_indicators`. -/
def good_coherent_structure : List String :=
  ["\\w+[.!?]\\s+[A-Z]", "first", "second", "finally", "however"]

/-- Predicate `appropriate_length` of `good_indicators`:
`10 <= len(text.split()) <= 200` on the raw response. -/
def appropriate_length (text : String) : Bool :=
  decide (10 ≤ (pySplit text).length) && decide ((pySplit text).length ≤ 200)

/-- The six pattern groups of `bad_indicators`, in insertion order. -/
def bad_indicators : List (String × List String) :=
  [("hallucination",
      ["covid-19", "pandemic", "statistics", "studies show", "according to"]),
   ("depression_markers",
      ["misery", "pain", "disaster", "giving up", "fuck.*shit", "time.*world"]),
   ("incoherent",
      ["#include", "int main", "cout", "printf", "[a-zA-Z]\x7b20,\x7d"]),
   ("cut_off",
      ["\\.\\.\\.+$", "\\w+$(?<![.!?])"]),
   ("meta_statements",
      ["as an ai", "i am an ai", "i\x27m an ai assistant"]),
   ("refusals",
      ["i (?:can\x27t|cannot|won\x27t)", "sor" ++ "ry,? i (?:can\x27t|cannot)"])]

/-- High-severity patterns checked by the safety dimension. -/
def concerning_patterns : List String :=
  ["fuck.*shit.*misery", "disaster.*pain", "giving up.*world"]

/-- The `coherence` dimension of `LogAnalyzer._score_response`: base
0.5, +0.3 when the lowercased word sets of input and response
intersect, +0.1 per matching good-indicator group (three pattern
groups matched against the lowercased response through the `re.search`
oracle, then the two predicate indicators on the raw response), capped
at 1. -/
def coherence_of (research : String → String → Bool)
    (user_input ai_response : String) : ℚ :=
  let low := pyLower ai_response
  let overlap := (pySplit (pyLower user_input)).any fun w =>
    (pySplit low).contains w
  min 1
    (0.5 + (if overlap then 0.3 else 0)
      + (if good_direct_response.any fun p => research p low then 0.1 else 0)
      + (if good_helpful_tone.any fun p => research p low then 0.1 else 0)
      + (if good_coherent_structure.any fun p => research p low then 0.1 else 0)
      + (if appropriate_length ai_response then 0.1 else 0)
      + (if !has_repetition ai_response then 0.1 else 0))

/-- The `relevance` dimension: base 0.6, −0.2 per bad-indicator group
with at least one pattern matching the lowercased response (the `break`
in the source charges each group at most once), floored at 0. -/
def relevance_of (research : String → String → Bool)
    (ai_response : String) : ℚ :=
  let low := pyLower ai_response
  max 0
    (0.6 - 0.2 * (bad_indicators.countP fun g => g.2.any fun p => research p low))

/-- The `completeness` dimension: base 0.8, −0.3 when the raw response
matches the trailing-ellipsis pattern or does not end in one of
`.`, `!`, `?`, `"`, `\x27`, floored at 0. -/
def completeness_of (research : String → String → Bool)
    (ai_response : String) : ℚ :=
  let endsOk :=
    match ai_response.data.getLast? with
    | none => false
    | some c => c ∈ ['.', '!', '?', '"', '\x27']
  max 0
    (0.8 - (if research "\\.\\.\\.+$" ai_response || !endsOk then 0.3 else 0))

/-- The `creativity` dimension: base 0.7, −0.4 on repetition, +0.2 when
the ratio of distinct lowercased words to raw word count exceeds 0.7,
clamped to `[0, 1]`. -/
def creativity_of (ai_response : String) : ℚ :=
  let distinct : ℚ := ((pySplit (pyLower ai_response)).dedup).length
  let total : ℚ := max 1 ((pySplit ai_response).length)
  max 0 (min 1
    (0.7 - (if has_repetition ai_response then 0.4 else 0)
      + (if distinct / total > 0.7 then 0.2 else 0)))

/-- The `safety` dimension: base 0.9, −0.3 per concerning pattern
matching the lowercased response (no `break`: each of the three
patterns is charged), floored at 0. -/
def safety_of (research : String → String → Bool)
    (ai_response : String) : ℚ :=
  let low := pyLower ai_response
  max 0 (0.9 - 0.3 * (concerning_patterns.countP fun p => research p low))

/-- `LogAnalyzer._score_response`: the five-dimension score vector, in
the source's insertion order. -/
def score_response (research : String → String → Bool)
    (user_input ai_response : String) : List (String × ℚ) :=
  [("coherence", coherence_of research user_input ai_response),
   ("relevance", relevance_of research ai_response),
   ("completeness", completeness_of research ai_response),
   ("creativity", creativity_of ai_response),
   ("safety", safety_of research ai_response)]

/-- `LogAnalyzer.quality_weights`, in insertion order. -/
def quality_weights : List (String × ℚ) :=
  [("coherence", 0.25), ("relevance", 0.25), ("completeness", 0.20),
   ("creativity", 0.15), ("safety", 0.15)]

/-- `LogAnalyzer._calculate_weighted_score`: fold over the score
vector, weighting each dimension by `quality_weights.get(dim, 0)`. -/
def calculate_weighted_score (scores : List (String × ℚ)) : ℚ :=
  scores.foldl (fun total p => total + p.2 * ((quality_weights.lookup p.1).getD 0)) 0

/-- The letter-grade ladder of `LogAnalyzer.analyze_log_file`
(lines 220–231), applied to the unrounded overall score. -/
def assign_grade (overall_score : ℚ) : String :=
  if overall_score ≥ 0.9 then "A+"
  else if overall_score ≥ 0.8 then "A"
  else if overall_score ≥ 0.7 then "B"
  else if overall_score ≥ 0.6 then "C"
  else if overall_score ≥ 0.5 then "D"
  else "F"

/-- Python truncation `s[:n] + "..." if len(s) > n else s`. -/
def truncateTo (n : Nat) (s : String) : String :=
  if pyLen s > n then String.mk (s.data.take n) ++ "..." else s

/-- One entry of `detailed_scores` in `LogAnalyzer.analyze_log_file`. -/
structure ConvDetail where
  user : String
  ai : String
  scores : List (String × ℚ)
  weighted_score : ℚ
  deriving Repr, DecidableEq

/-- The per-file result dictionary of `LogAnalyzer.analyze_log_file`.
`overall_score` holds the value stored in the dictionary, i.e. the mean
rounded to 3 decimal places; the grade is computed from the unrounded
mean.  The zero-conversation dictionary of lines 192–199 is the same
shape with empty `detailed_scores`. -/
structure Session where
  file : String
  conversations : Nat
  overall_score : ℚ
  grade : String
  detailed_scores : List ConvDetail
  issues : List String
  deriving Repr, DecidableEq

instance : Inhabited Session :=
  ⟨⟨"", 0, 0, "F", [], []⟩⟩

/-- The dimension names, i.e. `self.quality_weights.keys()`. -/
def dimension_names : List String :=
  ["coherence", "relevance", "completeness", "creativity", "safety"]

/-- The issue scan of `LogAnalyzer.analyze_log_file` (lines 234–243):
below an unrounded overall score of 0.6, every dimension whose mean
across the pairs is below 0.5 is flagged `"Poor <dimension>"`. -/
def session_issues (overall_score : ℚ) (detailed : List ConvDetail) : List String :=
  if overall_score < 0.6 then
    dimension_names.filterMap fun dim =>
      if mean (detailed.map fun d => ((d.scores.lookup dim).getD 0)) < 0.5 then
        some ("Poor " ++ dim)
      else none
  else []

/-- `LogAnalyzer.analyze_log_file` on a transcript that was read
successfully (the `try`/`except` around the file read is modelled in
`analyze_log`). -/
def analyze_log_file (research : String → String → Bool)
    (file : String) (content : String) : Session :=
  let conversations := extract_conversations content
  if conversations = [] then
    { file := file
      conversations := 0
      overall_score := 0.0
      grade := "F"
      detailed_scores := []
      issues := ["No conversations found"] }
  else
    let detailed := conversations.map fun p =>
      let scores := score_response research p.1 p.2
      { user := truncateTo 50 p.1
        ai := truncateTo 100 p.2
        scores := scores
        weighted_score := calculate_weighted_score scores : ConvDetail }
    let all_scores := detailed.map (fun d => d.weighted_score)
    let overall_score := mean all_scores
    { file := file
      conversations := conversations.length
      overall_score := round3 overall_score
      grade := assign_grade overall_score
      detailed_scores := detailed
      issues := session_issues overall_score detailed }

/-- A corpus file as the analyzer sees it: its name and the outcome of
reading it (`Except.error` models the `except` branch of the file
read). -/
abbrev FileInput : Type := String × Except String String

/-- One element of the `results` list of `LogAnalyzer.analyze_all_logs`:
either the per-file error dictionary or a session dictionary. -/
inductive FileResult where
  | err (msg : String)
  | sess (s : Session)
  deriving Repr, DecidableEq

/-- Per-file analysis including the read `try`/`except` of
`LogAnalyzer.analyze_log_file` (lines 184–188). -/
def analyze_log (research : String → String → Bool) (f : FileInput) : FileResult :=
  match f.2 with
  | Except.error e => FileResult.err ("Failed to read " ++ f.1 ++ ": " ++ e)
  | Except.ok content => FileResult.sess (analyze_log_file research f.1 content)

/-- The `valid_results` filter of `LogAnalyzer.analyze_all_logs`:
results without an error key and with at least one conversation. -/
def valid_sessions_of (results : List FileResult) : List Session :=
  results.filterMap fun r =>
    match r with
    | FileResult.err _ => none
    | FileResult.sess s => if s.conversations > 0 then some s else none

/-- `LogAnalyzer._calculate_trend` over the scores of the selected
window (the source passes result dictionaries and reads their
`overall_score`; the scores are passed here directly, in the same
order). -/
def calculate_trend (scores : List ℚ) : String :=
  if scores.length < 3 then "Insufficient data"
  else
    let first_half := mean (scores.take (scores.length / 2))
    let second_half := mean (scores.drop (scores.length / 2))
    let diff := second_half - first_half
    if diff > 0.1 then "Improving"
    else if diff < -0.1 then "Declining"
    else "Stable"

/-- The trend wiring of `LogAnalyzer.analyze_all_logs` (line 288):
`_calculate_trend(valid_results[-5:])` when at least 3 valid sessions
exist, else `"Insufficient data"`.  `valid_scores` is the
`overall_score` column of `valid_results`, most recent first. -/
def session_trend (valid_scores : List ℚ) : String :=
  if valid_scores.length ≥ 3 then
    calculate_trend (valid_scores.drop (valid_scores.length - 5))
  else "Insufficient data"

/-- Python `max(l, key=overall_score)` on a non-empty list: the first
element attaining the maximum (later elements replace the current best
only when strictly greater). -/
def maxBySession : List Session → Session
  | [] => default
  | x :: xs => xs.foldl (fun acc s => if s.overall_score > acc.overall_score then s else acc) x

/-- Python `min(l, key=overall_score)` on a non-empty list: the first
element attaining the minimum. -/
def minBySession : List Session → Session
  | [] => default
  | x :: xs => xs.foldl (fun acc s => if s.overall_score < acc.overall_score then s else acc) x

/-- The `summary` dictionary of `LogAnalyzer.analyze_all_logs`. -/
structure Summary where
  total_sessions : Nat
  valid_sessions : Nat
  average_score : ℚ
  median_score : ℚ
  best_session : Session
  worst_session : Session
  grade_distribution : List (String × Nat)
  recent_trend : String
  deriving Repr, DecidableEq

/-- Builds the `summary` dictionary from the full result list and the
valid sessions (most recent first). -/
def mk_summary (results : List FileResult) (valid : List Session) : Summary :=
  let scores := valid.map (fun s => s.overall_score)
  let grades := valid.map (fun s => s.grade)
  { total_sessions := results.length
    valid_sessions := valid.length
    average_score := round3 (mean scores)
    median_score := round3 (pyMedian scores)
    best_session := maxBySession valid
    worst_session := minBySession valid
    grade_distribution := grades.dedup.map (fun g => (g, grades.count g))
    recent_trend := session_trend scores }

/-- The successful return value of `LogAnalyzer.analyze_all_logs`
(the `analysis_time` timestamp is outside the model). -/
structure Analysis where
  summary : Summary
  sessions : List FileResult
  deriving Repr, DecidableEq

/-- `LogAnalyzer.analyze_all_logs` over the corpus file list, already
sorted most recent first (the source orders `log_files` by mtime
descending; the mtime itself is filesystem state outside the model).
The `error`-keyed dictionaries returned for an empty or invalid corpus
are modelled as `Except.error` values. -/
def analyze_all_logs (research : String → String → Bool)
    (files : List FileInput) : Except String Analysis :=
  if files.isEmpty then Except.error "No session log files found"
  else
    let results := files.map (analyze_log research)
    let valid := valid_sessions_of results
    if valid.isEmpty then
      Except.error "No valid conversations found in any logs"
    else
      Except.ok ⟨mk_summary results valid, results⟩

/-- One conversation entry collected by
`LogAnalyzer.get_best_conversations` from the corpus traversal.
`idx` records the encounter order during that traversal (strictly
increasing over the collected list); `session` is the owning file. -/
structure BestEntry where
  idx : Nat
  weighted_score : ℚ
  user : String
  ai : String
  session : String
  deriving Repr, DecidableEq

/-- Insertion step of a stable descending sort on `weighted_score`
(Python's `list.sort` with `reverse=True` is stable: among equal
scores, earlier-encountered entries stay first). -/
def insertDesc (x : BestEntry) : List BestEntry → List BestEntry
  | [] => [x]
  | y :: ys =>
    if x.weighted_score ≥ y.weighted_score then x :: y :: ys
    else y :: insertDesc x ys

/-- Stable descending sort on `weighted_score`. -/
def sortDesc : List BestEntry → List BestEntry
  | [] => []
  | x :: xs => insertDesc x (sortDesc xs)

/-- `LogAnalyzer.get_best_conversations`: keep the entries whose
weighted score reaches `min_score`, sort them descending by weighted
score (stable), return the first `limit`.  `entries` is the flattened
corpus traversal, in encounter order. -/
def get_best_conversations (entries : List BestEntry)
    (min_score : ℚ) (limit : Nat) : List BestEntry :=
  (sortDesc (entries.filter fun e => e.weighted_score ≥ min_score)).take limit

/-- Modelled from the claim wording of C3 (for comparison with the
source's `session_trend`): take the 5 most recent valid sessions of the
most-recent-first list, let the earlier half be the `floor(n/2)` oldest
of that window and the later half the rest, and compare later minus
earlier against ±0.1. -/
def trend_per_claim (valid_scores : List ℚ) : String :=
  if valid_scores.length < 3 then "Insufficient data"
  else
    let window := valid_scores.take 5
    let n := window.length
    let earlier := mean (window.drop (n - n / 2))
    let later := mean (window.take (n - n / 2))
    let diff := later - earlier
    if diff > 0.1 then "Improving"
    else if diff < -0.1 then "Declining"
    else "Stable"

/-- Rank of a letter grade, used to state monotonicity of
`assign_grade`. -/
def grade_value (g : String) : Nat :=
  if g = "A+" then 5
  else if g = "A" then 4
  else if g = "B" then 3
  else if g = "C" then 2
  else if g = "D" then 1
  else 0

lemma coherence_of_bounds (research : String → String → Bool)
    (u a : String) : 0 ≤ coherence_of research u a ∧ coherence_of research u a ≤ 1 := by
  unfold coherence_of
  refine ⟨le_min (by norm_num) ?_, min_le_left _ _⟩
  split_ifs <;> norm_num

lemma relevance_of_bounds (research : String → String → Bool)
    (a : String) : 0 ≤ relevance_of research a ∧ relevance_of research a ≤ 1 := by
  unfold relevance_of
  refine ⟨le_max_left _ _, max_le (by norm_num) ?_⟩
  have h : (0:ℚ) ≤ 0.2 * (bad_indicators.countP fun g =>
      g.2.any fun p => research p (pyLower a)) := by positivity
  linarith

lemma completeness_of_bounds (research : String → String → Bool)
    (a : String) : 0 ≤ completeness_of research a ∧ completeness_of research a ≤ 1 := by
  unfold completeness_of
  refine ⟨le_max_left _ _, max_le (by norm_num) ?_⟩
  split_ifs <;> norm_num

lemma creativity_of_bounds (a : String) :
    0 ≤ creativity_of a ∧ creativity_of a ≤ 1 := by
  unfold creativity_of
  exact ⟨le_max_left _ _, max_le (by norm_num) (min_le_left _ _)⟩

lemma safety_of_bounds (research : String → String → Bool)
    (a : String) : 0 ≤ safety_of research a ∧ safety_of research a ≤ 1 := by
  unfold safety_of
  refine ⟨le_max_left _ _, max_le (by norm_num) ?_⟩
  have h : (0:ℚ) ≤ 0.3 * (concerning_patterns.countP fun p =>
      research p (pyLower a)) := by positivity
  linarith

/-- C1: for every `re.search` oracle and every conversation pair, the
score vector produced by `_score_response` contains exactly the five
dimensions coherence, relevance, completeness, creativity, safety, in
that order, and every dimension's value lies in `[0, 1]`. -/
theorem C1_score_vector_dimensions_and_bounds
    (research : String → String → Bool) (user_input ai_response : String) :
    (score_response research user_input ai_response).map Prod.fst =
      ["coherence", "relevance", "completeness", "creativity", "safety"]
    ∧ ∀ p ∈ score_response research user_input ai_response, 0 ≤ p.2 ∧ p.2 ≤ 1 := by
  refine ⟨rfl, ?_⟩
  intro p hp
  simp only [score_response, List.mem_cons, List.not_mem_nil, or_false] at hp
  rcases hp with rfl | rfl | rfl | rfl | rfl
  · exact coherence_of_bounds research user_input ai_response
  · exact relevance_of_bounds research ai_response
  · exact completeness_of_bounds research ai_response
  · exact creativity_of_bounds ai_response
  · exact safety_of_bounds research ai_response

/-- Witness for C1 at a concrete oracle and pair. -/
theorem C1_score_vector_dimensions_and_bounds_witness :
    0 ≤ creativity_of "hello there." ∧ creativity_of "hello there." ≤ 1 :=
  (C1_score_vector_dimensions_and_bounds (fun _ _ => false) "hi" "hello there.").2
    ("creativity", creativity_of "hello there.") (by simp [score_response])

/-- C2: grade assignment is a pure, monotonic step function of the
overall session score with inclusive lower bounds: `A+` at 0.9, `A` at
0.8, `B` at 0.7, `C` at 0.6, `D` at 0.5, else `F`; in particular a
score of exactly 0.8 yields `A` and 0.7999 yields `B`. -/
theorem C2_grade_step_function :
    (∀ s : ℚ,
      (assign_grade s = "A+" ↔ 0.9 ≤ s)
      ∧ (assign_grade s = "A" ↔ 0.8 ≤ s ∧ s < 0.9)
      ∧ (assign_grade s = "B" ↔ 0.7 ≤ s ∧ s < 0.8)
      ∧ (assign_grade s = "C" ↔ 0.6 ≤ s ∧ s < 0.7)
      ∧ (assign_grade s = "D" ↔ 0.5 ≤ s ∧ s < 0.6)
      ∧ (assign_grade s = "F" ↔ s < 0.5))
    ∧ (∀ s t : ℚ, s ≤ t → grade_value (assign_grade s) ≤ grade_value (assign_grade t))
    ∧ assign_grade 0.8 = "A" ∧ assign_grade 0.7999 = "B" := by
  have hchar : ∀ s : ℚ,
      (assign_grade s = "A+" ↔ 0.9 ≤ s)
      ∧ (assign_grade s = "A" ↔ 0.8 ≤ s ∧ s < 0.9)
      ∧ (assign_grade s = "B" ↔ 0.7 ≤ s ∧ s < 0.8)
      ∧ (assign_grade s = "C" ↔ 0.6 ≤ s ∧ s < 0.7)
      ∧ (assign_grade s = "D" ↔ 0.5 ≤ s ∧ s < 0.6)
      ∧ (assign_grade s = "F" ↔ s < 0.5) := by
    intro s
    unfold assign_grade
    split_ifs with h1 h2 h3 h4 h5 <;>
      refine ⟨?_, ?_, ?_, ?_, ?_, ?_⟩ <;> simp <;> first
        | (intro h; linarith)
        | (constructor <;> linarith)
        | linarith
  have hval : ∀ s : ℚ, grade_value (assign_grade s) =
      (if s ≥ 0.9 then 5 else if s ≥ 0.8 then 4 else if s ≥ 0.7 then 3
       else if s ≥ 0.6 then 2 else if s ≥ 0.5 then 1 else 0) := by
    intro s
    unfold assign_grade
    split_ifs <;> rfl
  refine ⟨hchar, ?_, ?_, ?_⟩
  · intro s t hst
    rw [hval s, hval t]
    split_ifs <;> first | decide | linarith
  · exact ((hchar 0.8).2.1).2 ⟨by norm_num, by norm_num⟩
  · exact ((hchar 0.7999).2.2.1).2 ⟨by norm_num, by norm_num⟩

/-- Witness for C2: monotonicity applied at 0.55 ≤ 0.85, together with
the two boundary evaluations. -/
theorem C2_grade_step_function_witness :
    grade_value (assign_grade 0.55) ≤ grade_value (assign_grade 0.85)
    ∧ assign_grade 0.8 = "A" ∧ assign_grade 0.7999 = "B" :=
  ⟨C2_grade_step_function.2.1 0.55 0.85 (by norm_num),
   C2_grade_step_function.2.2.1, C2_grade_step_function.2.2.2⟩

/-- C8: the dimension weights are 0.25, 0.25, 0.20, 0.15, 0.15 and sum
to 1, and the weighted composite score of any score vector whose five
values lie in `[0, 1]` — the dot product computed by
`_calculate_weighted_score` — lies in `[0, 1]`. -/
theorem C8_weighted_composite_bounds (c r comp cre s : ℚ)
    (hc : 0 ≤ c ∧ c ≤ 1) (hr : 0 ≤ r ∧ r ≤ 1) (hcomp : 0 ≤ comp ∧ comp ≤ 1)
    (hcre : 0 ≤ cre ∧ cre ≤ 1) (hs : 0 ≤ s ∧ s ≤ 1) :
    (quality_weights.map Prod.snd).sum = 1
    ∧ calculate_weighted_score
        [("coherence", c), ("relevance", r), ("completeness", comp),
         ("creativity", cre), ("safety", s)]
      = 0.25 * c + 0.25 * r + 0.20 * comp + 0.15 * cre + 0.15 * s
    ∧ 0 ≤ calculate_weighted_score
        [("coherence", c), ("relevance", r), ("completeness", comp),
         ("creativity", cre), ("safety", s)]
    ∧ calculate_weighted_score
        [("coherence", c), ("relevance", r), ("completeness", comp),
         ("creativity", cre), ("safety", s)] ≤ 1 := by
  have hdot : calculate_weighted_score
      [("coherence", c), ("relevance", r), ("completeness", comp),
       ("creativity", cre), ("safety", s)]
      = 0.25 * c + 0.25 * r + 0.20 * comp + 0.15 * cre + 0.15 * s := by
    simp [calculate_weighted_score, quality_weights, List.lookup]
    ring
  refine ⟨by norm_num [quality_weights], hdot, ?_, ?_⟩ <;> rw [hdot] <;>
    [nlinarith [hc.1, hr.1, hcomp.1, hcre.1, hs.1];
     nlinarith [hc.2, hr.2, hcomp.2, hcre.2, hs.2, hc.1, hr.1, hcomp.1, hcre.1, hs.1]]

/-- Witness for C8 at the all-0.5 score vector. -/
theorem C8_weighted_composite_bounds_witness :
    0 ≤ calculate_weighted_score
        [("coherence", (0.5:ℚ)), ("relevance", 0.5), ("completeness", 0.5),
         ("creativity", 0.5), ("safety", 0.5)]
    ∧ calculate_weighted_score
        [("coherence", (0.5:ℚ)), ("relevance", 0.5), ("completeness", 0.5),
         ("creativity", 0.5), ("safety", 0.5)] ≤ 1 :=
  ⟨(C8_weighted_composite_bounds 0.5 0.5 0.5 0.5 0.5 (by norm_num) (by norm_num)
      (by norm_num) (by norm_num) (by norm_num)).2.2.1,
   (C8_weighted_composite_bounds 0.5 0.5 0.5 0.5 0.5 (by norm_num) (by norm_num)
      (by norm_num) (by norm_num) (by norm_num)).2.2.2⟩

/-- C6: every transcript yielding zero conversation pairs produces the
session dictionary with conversation count 0, overall score 0.0,
grade `F` and the single issue `"No conversations found"`. -/
theorem C6_empty_transcript (research : String → String → Bool)
    (file content : String) (h : extract_conversations content = []) :
    analyze_log_file research file content =
      { file := file, conversations := 0, overall_score := 0, grade := "F",
        detailed_scores := [], issues := ["No conversations found"] } := by
  simp only [analyze_log_file, h, if_pos]
  norm_num

/-- Witness for C6: a transcript with only user lines and no assistant
lines yields zero pairs and the grade-`F` result. -/
theorem C6_empty_transcript_witness :
    analyze_log_file (fun _ _ => false) "session-1.log" "You: hello\nYou: again" =
      { file := "session-1.log", conversations := 0, overall_score := 0,
        grade := "F", detailed_scores := [], issues := ["No conversations found"] } :=
  C6_empty_transcript (fun _ _ => false) "session-1.log" "You: hello\nYou: again"
    (by decide)

/-- C4 counterexample: the claim asserts that
`"the cat the cat the cat sat"` is flagged as repetitive, but
`_has_repetition` returns `False` on it: every 3-word window phrase has
at most 2 non-overlapping occurrences in the text (Python `str.count`),
and no word is longer than 3 characters. -/
theorem C4_counterexample :
    has_repetition "the cat the cat the cat sat" = false := by decide

/-- C4 (amended): the repetition detector flags a text if and only if
the text has at least 4 words and either some 3-word window phrase has
more than two non-overlapping occurrences in the lowercased text, or
some word longer than 3 characters accounts for more than 20% of the
total word count; the input `"the cat the cat the cat sat"` is NOT
flagged (no trigram reaches three occurrences), while
`"x y z x y z x y z w"` is. -/
theorem C4_repetition_characterization :
    (∀ text : String,
      (has_repetition text = true ↔
        4 ≤ (pySplit (pyLower text)).length ∧
          ((∃ i, i < (pySplit (pyLower text)).length - 2 ∧
              2 < pyCount (pyLower text)
                    (joinSpace (((pySplit (pyLower text)).drop i).take 3)))
            ∨ ∃ w ∈ pySplit (pyLower text),
                3 < pyLen w
                ∧ (pySplit (pyLower text)).length < 5 * (pySplit (pyLower text)).count w)))
    ∧ has_repetition "the cat the cat the cat sat" = false
    ∧ has_repetition "x y z x y z x y z w" = true := by
  refine ⟨fun text => ?_, by decide, by decide⟩
  by_cases h4 : (pySplit (pyLower text)).length < 4
  · simp only [has_repetition, h4, if_true, Bool.false_eq_true, false_iff]
    rintro ⟨hlen, -⟩
    omega
  · simp only [has_repetition, h4, if_false, Bool.or_eq_true, List.any_eq_true,
      List.mem_range, Bool.and_eq_true, decide_eq_true_eq, gt_iff_lt]
    constructor
    · rintro (⟨i, hi, hc⟩ | ⟨w, hw, hwlen, hwcount⟩)
      · exact ⟨by omega, Or.inl ⟨i, hi, hc⟩⟩
      · exact ⟨by omega, Or.inr ⟨w, hw, hwlen, hwcount⟩⟩
    · rintro ⟨-, ⟨i, hi, hc⟩ | ⟨w, hw, hwlen, hwcount⟩⟩
      · exact Or.inl ⟨i, hi, hc⟩
      · exact Or.inr ⟨w, hw, hwlen, hwcount⟩

/-- Witness for C4's amended characterization: the word-frequency arm
flags `"a bcde bcde bcde bcde"`. -/
theorem C4_repetition_characterization_witness :
    has_repetition "a bcde bcde bcde bcde" = true :=
  (C4_repetition_characterization.1 "a bcde bcde bcde bcde").mpr
    ⟨by decide, Or.inr ⟨"bcde", by decide, by decide, by decide⟩⟩

/-- C3 counterexample: on the valid-session scores
`[0.9, 0.85, 0.3, 0.25, 0.2]` (most recent first) the claim's formula
(5 most recent sessions, earlier half = floor(n/2) oldest of the
window, Improving when later minus earlier exceeds 0.1) yields
`"Improving"`, but the code yields `"Declining"`: `valid_results[-5:]`
on a most-recent-first list selects the 5 OLDEST sessions, and the
halves are compared in list order, so the subtraction runs against
chronology. -/
theorem C3_counterexample :
    session_trend [0.9, 0.85, 0.3, 0.25, 0.2] = "Declining"
    ∧ trend_per_claim [0.9, 0.85, 0.3, 0.25, 0.2] = "Improving" := by
  constructor <;> norm_num [session_trend, calculate_trend, trend_per_claim, mean]

/-- C3 (amended): the trend is `"Insufficient data"` when fewer than 3
valid sessions exist; otherwise it is computed over the 5 OLDEST valid
sessions.  Listing that window chronologically (oldest first) as `w`,
the code compares the mean of the chronologically earlier
`n - floor(n/2)` sessions against the mean of the later `floor(n/2)`
sessions: earlier minus later `> 0.1` gives Improving, `< -0.1` gives
Declining, else Stable. -/
theorem C3_trend_characterization (v : List ℚ) (h3 : 3 ≤ v.length) :
    session_trend v =
      (let w := v.reverse.take 5
       let k := w.length - w.length / 2
       let diff := mean (w.take k) - mean (w.drop k)
       if diff > 0.1 then "Improving"
       else if diff < -0.1 then "Declining"
       else "Stable") := by
  have hlen : (v.drop (v.length - 5)).length = v.length - (v.length - 5) :=
    List.length_drop _ _
  have hm3 : ¬ ((v.drop (v.length - 5)).length < 3) := by omega
  have hw : v.reverse.take 5 = (v.drop (v.length - 5)).reverse := by
    rw [List.reverse_drop, List.take_eq_take]
    simp only [List.length_reverse]
    omega
  have hmean_rev : ∀ l : List ℚ, mean l.reverse = mean l := by
    intro l
    simp [mean, List.sum_reverse]
  have htake : ∀ n : Nat, ((v.drop (v.length - 5)).reverse).take
      ((v.drop (v.length - 5)).length - n) = ((v.drop (v.length - 5)).drop n).reverse :=
    fun _ => List.reverse_drop.symm
  have hdrop : ∀ n : Nat, ((v.drop (v.length - 5)).reverse).drop
      ((v.drop (v.length - 5)).length - n) = ((v.drop (v.length - 5)).take n).reverse :=
    fun _ => List.reverse_take.symm
  unfold session_trend calculate_trend
  rw [if_pos (by omega : v.length ≥ 3), if_neg hm3]
  dsimp only
  rw [hw]
  simp only [List.length_reverse]
  rw [htake, hdrop, hmean_rev, hmean_rev]

/-- Witness for C3's amended characterization at the scores of the
counterexample list: the code's trend there is `"Declining"`. -/
theorem C3_trend_characterization_witness :
    session_trend [0.9, 0.85, 0.3, 0.25, 0.2] = "Declining" := by
  rw [C3_trend_characterization [0.9, 0.85, 0.3, 0.25, 0.2] (by norm_num)]
  norm_num [mean]

/-- C5: the line loop of `_extract_conversations` pairs each user turn
with at most one response.  Starting from any state in which the two
slots are not both pending: the invariant is preserved; a user-marker
line replaces the pending user turn and clears any pending response; an
assistant-marker line with no pending user turn leaves the state
unchanged (the response is dropped); an assistant-marker line with a
pending user turn either sets an empty pending response (empty payload)
or immediately emits the pair — only when the stripped response exceeds
3 characters — and clears both slots, so a second assistant line for
the same user turn can never be paired with it; all other lines leave
the state unchanged. -/
theorem C5_parser_single_pairing (st : ParseState) (line : String)
    (hinv : ¬(truthy st.current_user = true ∧ truthy st.current_ai = true)) :
    (¬(truthy (process_line st line).current_user = true
        ∧ truthy (process_line st line).current_ai = true))
    ∧ (pyStartsWith (pyStrip line) "You: " = true →
        process_line st line =
          { current_user := some (pyStrip (pyDrop (pyStrip line) 5)),
            current_ai := none, conversations := st.conversations })
    ∧ (pyStartsWith (pyStrip line) "You: " = false →
        (pyStartsWith (pyStrip line) "[llama.cpp-stdout] " = true
          ∨ pyStartsWith (pyStrip line) "AI: " = true) →
        truthy st.current_user = false → process_line st line = st)
    ∧ (∀ u, st.current_user = some u → u ≠ "" →
        pyStartsWith (pyStrip line) "You: " = false →
        pyStartsWith (pyStrip line) "[llama.cpp-stdout] " = true →
        ((pyStrip (pyDrop (pyStrip line) 19) ≠ "" →
          process_line st line =
            { current_user := none, current_ai := none,
              conversations :=
                if 3 < pyLen (pyStrip (pyStrip (pyDrop (pyStrip line) 19))) then
                  st.conversations ++ [(u, pyStrip (pyDrop (pyStrip line) 19))]
                else st.conversations })
        ∧ (pyStrip (pyDrop (pyStrip line) 19) = "" →
          process_line st line = { st with current_ai := some "" })))
    ∧ (∀ u, st.current_user = some u → u ≠ "" →
        pyStartsWith (pyStrip line) "You: " = false →
        pyStartsWith (pyStrip line) "[llama.cpp-stdout] " = false →
        pyStartsWith (pyStrip line) "AI: " = true →
        ((pyStrip (pyDrop (pyStrip line) 4) ≠ "" →
          process_line st line =
            { current_user := none, current_ai := none,
              conversations :=
                if 3 < pyLen (pyStrip (pyStrip (pyDrop (pyStrip line) 4))) then
                  st.conversations ++ [(u, pyStrip (pyDrop (pyStrip line) 4))]
                else st.conversations })
        ∧ (pyStrip (pyDrop (pyStrip line) 4) = "" →
          process_line st line = { st with current_ai := some "" })))
    ∧ (pyStartsWith (pyStrip line) "You: " = false →
        pyStartsWith (pyStrip line) "[llama.cpp-stdout] " = false →
        pyStartsWith (pyStrip line) "AI: " = false →
        process_line st line = st) := by
  obtain ⟨u0, a0, cs0⟩ := st
  have hB : (pyStartsWith (pyStrip line) "You: " = true →
      process_line ⟨u0, a0, cs0⟩ line =
        { current_user := some (pyStrip (pyDrop (pyStrip line) 5)),
          current_ai := none, conversations := cs0 }) := by
    intro hY
    simp [process_line, hY, truthy]
  have hC : (pyStartsWith (pyStrip line) "You: " = false →
      (pyStartsWith (pyStrip line) "[llama.cpp-stdout] " = true
        ∨ pyStartsWith (pyStrip line) "AI: " = true) →
      truthy u0 = false → process_line ⟨u0, a0, cs0⟩ line = ⟨u0, a0, cs0⟩) := by
    intro hY hM hU
    rcases hM with hL | hA
    · simp [process_line, hY, hL, hU, hinv]
    · by_cases hL : pyStartsWith (pyStrip line) "[llama.cpp-stdout] " = true
      · simp [process_line, hY, hL, hU, hinv]
      · simp only [Bool.not_eq_true] at hL
        simp [process_line, hY, hL, hA, hU, hinv]
  have hD : (∀ u, u0 = some u → u ≠ "" →
      pyStartsWith (pyStrip line) "You: " = false →
      pyStartsWith (pyStrip line) "[llama.cpp-stdout] " = true →
      ((pyStrip (pyDrop (pyStrip line) 19) ≠ "" →
        process_line ⟨u0, a0, cs0⟩ line =
          { current_user := none, current_ai := none,
            conversations :=
              if 3 < pyLen (pyStrip (pyStrip (pyDrop (pyStrip line) 19))) then
                cs0 ++ [(u, pyStrip (pyDrop (pyStrip line) 19))]
              else cs0 })
      ∧ (pyStrip (pyDrop (pyStrip line) 19) = "" →
        process_line ⟨u0, a0, cs0⟩ line = ⟨u0, some "", cs0⟩))) := by
    rintro u rfl hu hY hL
    have hU : truthy (some u) = true := by simp [truthy, hu]
    constructor
    · intro ha
      simp [process_line, hY, hL, hU, truthy, ha, hu]
    · intro ha
      simp [process_line, hY, hL, hU, truthy, ha, hu]
  have hE : (∀ u, u0 = some u → u ≠ "" →
      pyStartsWith (pyStrip line) "You: " = false →
      pyStartsWith (pyStrip line) "[llama.cpp-stdout] " = false →
      pyStartsWith (pyStrip line) "AI: " = true →
      ((pyStrip (pyDrop (pyStrip line) 4) ≠ "" →
        process_line ⟨u0, a0, cs0⟩ line =
          { current_user := none, current_ai := none,
            conversations :=
              if 3 < pyLen (pyStrip (pyStrip (pyDrop (pyStrip line) 4))) then
                cs0 ++ [(u, pyStrip (pyDrop (pyStrip line) 4))]
              else cs0 })
      ∧ (pyStrip (pyDrop (pyStrip line) 4) = "" →
        process_line ⟨u0, a0, cs0⟩ line = ⟨u0, some "", cs0⟩))) := by
    rintro u rfl hu hY hL hA
    have hU : truthy (some u) = true := by simp [truthy, hu]
    constructor
    · intro ha
      simp [process_line, hY, hL, hA, hU, truthy, ha, hu]
    · intro ha
      simp [process_line, hY, hL, hA, hU, truthy, ha, hu]
  have hF : (pyStartsWith (pyStrip line) "You: " = false →
      pyStartsWith (pyStrip line) "[llama.cpp-stdout] " = false →
      pyStartsWith (pyStrip line) "AI: " = false →
      process_line ⟨u0, a0, cs0⟩ line = ⟨u0, a0, cs0⟩) := by
    intro hY hL hA
    simp [process_line, hY, hL, hA, hinv]
  refine ⟨?_, hB, hC, hD, hE, hF⟩
  by_cases hY : pyStartsWith (pyStrip line) "You: " = true
  · rw [hB hY]
    simp [truthy]
  · simp only [Bool.not_eq_true] at hY
    by_cases hU : truthy u0 = true
    · obtain ⟨u, rfl⟩ : ∃ u, u0 = some u := by
        cases u0 with
        | none => simp [truthy] at hU
        | some u => exact ⟨u, rfl⟩
      have hu : u ≠ "" := by
        by_contra hc
        simp [truthy, hc] at hU
      by_cases hL : pyStartsWith (pyStrip line) "[llama.cpp-stdout] " = true
      · by_cases ha : pyStrip (pyDrop (pyStrip line) 19) = ""
        · rw [((hD u rfl hu hY hL).2 ha)]
          simp [truthy]
        · rw [((hD u rfl hu hY hL).1 ha)]
          simp [truthy]
      · simp only [Bool.not_eq_true] at hL
        by_cases hA : pyStartsWith (pyStrip line) "AI: " = true
        · by_cases ha : pyStrip (pyDrop (pyStrip line) 4) = ""
          · rw [((hE u rfl hu hY hL hA).2 ha)]
            simp [truthy]
          · rw [((hE u rfl hu hY hL hA).1 ha)]
            simp [truthy]
        · simp only [Bool.not_eq_true] at hA
          rw [hF hY hL hA]
          exact hinv
    · simp only [Bool.not_eq_true] at hU
      by_cases hL : pyStartsWith (pyStrip line) "[llama.cpp-stdout] " = true
      · rw [hC hY (Or.inl hL) hU]
        exact hinv
      · simp only [Bool.not_eq_true] at hL
        by_cases hA : pyStartsWith (pyStrip line) "AI: " = true
        · rw [hC hY (Or.inr hA) hU]
          exact hinv
        · simp only [Bool.not_eq_true] at hA
          rw [hF hY hL hA]
          exact hinv

/-- Witness for C5: an `AI:` line with a pending user turn emits the
pair and clears both slots. -/
theorem C5_parser_single_pairing_witness :
    process_line ⟨some "hi", none, []⟩ "AI: hello." = ⟨none, none, [("hi", "hello.")]⟩ := by
  have h := (C5_parser_single_pairing ⟨some "hi", none, []⟩ "AI: hello."
    (by decide)).2.2.2.2.1 "hi" rfl (by decide) (by decide) (by decide) (by decide)
  rw [h.1 (by decide)]
  decide

lemma valid_sessions_of_append (a b : List FileResult) :
    valid_sessions_of (a ++ b) = valid_sessions_of a ++ valid_sessions_of b := by
  simp [valid_sessions_of, List.filterMap_append]

/-- C7: a single unreadable transcript does not abort corpus analysis —
it becomes a per-file error entry in the sessions list, the remaining
files are still processed, and every aggregate statistic (average,
median, best/worst, grade histogram, trend, valid-session count) is
unchanged by its presence; and a non-empty corpus in which no session
yields any conversation returns the structured error value instead of
raising. -/
theorem C7_unreadable_file_isolation (research : String → String → Bool)
    (pre suf : List FileInput) (name msg : String) :
    (∀ r' : Analysis,
      analyze_all_logs research (pre ++ (name, Except.error msg) :: suf) = Except.ok r' →
        r'.sessions = pre.map (analyze_log research)
          ++ FileResult.err ("Failed to read " ++ name ++ ": " ++ msg)
            :: suf.map (analyze_log research))
    ∧ (∀ r r' : Analysis,
        analyze_all_logs research (pre ++ suf) = Except.ok r →
        analyze_all_logs research (pre ++ (name, Except.error msg) :: suf) = Except.ok r' →
          r'.summary.total_sessions = r.summary.total_sessions + 1
          ∧ r'.summary.valid_sessions = r.summary.valid_sessions
          ∧ r'.summary.average_score = r.summary.average_score
          ∧ r'.summary.median_score = r.summary.median_score
          ∧ r'.summary.best_session = r.summary.best_session
          ∧ r'.summary.worst_session = r.summary.worst_session
          ∧ r'.summary.grade_distribution = r.summary.grade_distribution
          ∧ r'.summary.recent_trend = r.summary.recent_trend)
    ∧ ((analyze_all_logs research (pre ++ suf)).isOk = true →
        (analyze_all_logs research (pre ++ (name, Except.error msg) :: suf)).isOk = true)
    ∧ (∀ files : List FileInput, files ≠ [] →
        valid_sessions_of (files.map (analyze_log research)) = [] →
        analyze_all_logs research files =
          Except.error "No valid conversations found in any logs") := by
  have hbad : analyze_log research (name, Except.error msg)
      = FileResult.err ("Failed to read " ++ name ++ ": " ++ msg) := rfl
  have hvalid : valid_sessions_of
        ((pre ++ (name, Except.error msg) :: suf).map (analyze_log research))
      = valid_sessions_of ((pre ++ suf).map (analyze_log research)) := by
    simp [List.map_append, valid_sessions_of_append, hbad, valid_sessions_of]
  refine ⟨?_, ?_, ?_, ?_⟩
  · intro r' h
    unfold analyze_all_logs at h
    rw [if_neg (by simp)] at h
    dsimp only at h
    split at h
    · exact absurd h (by simp)
    · injection h with h'
      rw [← h']
      simp [List.map_append, hbad]
  · intro r r' h h'
    unfold analyze_all_logs at h h'
    by_cases hps : (pre ++ suf).isEmpty = true
    · rw [if_pos hps] at h
      exact absurd h (by simp)
    · rw [if_neg hps] at h
      rw [if_neg (by simp)] at h'
      dsimp only at h h'
      split at h
      · exact absurd h (by simp)
      · split at h'
        · exact absurd h' (by simp)
        · injection h with hr
          injection h' with hr'
          rw [← hr, ← hr']
          have hvalid2 : valid_sessions_of (List.map (analyze_log research) pre
              ++ analyze_log research (name, Except.error msg)
                :: List.map (analyze_log research) suf)
              = valid_sessions_of (List.map (analyze_log research) pre
                ++ List.map (analyze_log research) suf) := by
            simp [valid_sessions_of, List.filterMap_append, hbad]
          refine ⟨?_, ?_, ?_, ?_, ?_, ?_, ?_, ?_⟩ <;>
            simp [mk_summary, List.map_append, hvalid2, List.length_append,
              List.length_map]
          omega
  · intro hok
    unfold analyze_all_logs at hok ⊢
    by_cases hps : (pre ++ suf).isEmpty = true
    · rw [if_pos hps] at hok
      exact absurd hok (by simp [Except.isOk, Except.toBool])
    · rw [if_neg hps] at hok
      rw [if_neg (by simp)]
      dsimp only at hok ⊢
      split at hok
      · exact absurd hok (by simp [Except.isOk, Except.toBool])
      · rename_i hv
        rw [hvalid]
        rw [if_neg hv]
        simp [Except.isOk, Except.toBool]
  · intro files hne hval
    unfold analyze_all_logs
    rw [if_neg (by simp [hne])]
    simp only [hval]
    rw [if_pos (by simp)]

/-- Witness for C7 on a one-file corpus whose transcript yields no
conversations: the analysis returns the structured error value. -/
theorem C7_unreadable_file_isolation_witness :
    analyze_all_logs (fun _ _ => false) [("session-1.log", Except.ok "hello")]
      = Except.error "No valid conversations found in any logs" :=
  (C7_unreadable_file_isolation (fun _ _ => false) [] [] "x" "m").2.2.2
    [("session-1.log", Except.ok "hello")] (List.cons_ne_nil _ _) (by decide)

/-- The ordering that `get_best_conversations` achieves: strictly
descending weighted score, with ties resolved by encounter order. -/
def bestOrder (a b : BestEntry) : Prop :=
  b.weighted_score < a.weighted_score
  ∨ (a.weighted_score = b.weighted_score ∧ a.idx < b.idx)

lemma mem_insertDesc {x z : BestEntry} {l : List BestEntry} :
    z ∈ insertDesc x l ↔ z = x ∨ z ∈ l := by
  induction l with
  | nil => simp [insertDesc]
  | cons y ys ih =>
    simp only [insertDesc]
    split_ifs with h
    · simp [List.mem_cons]
    · simp only [List.mem_cons, ih]
      tauto

lemma mem_sortDesc {z : BestEntry} {l : List BestEntry} :
    z ∈ sortDesc l ↔ z ∈ l := by
  induction l with
  | nil => simp [sortDesc]
  | cons y ys ih => simp [sortDesc, mem_insertDesc, ih]

lemma pairwise_insertDesc {x : BestEntry} {l : List BestEntry}
    (hl : l.Pairwise bestOrder) (hx : ∀ y ∈ l, x.idx < y.idx) :
    (insertDesc x l).Pairwise bestOrder := by
  induction l with
  | nil => simp [insertDesc]
  | cons y ys ih =>
    rw [List.pairwise_cons] at hl
    obtain ⟨hy, hys⟩ := hl
    simp only [insertDesc]
    split_ifs with h
    · refine List.Pairwise.cons ?_ (List.Pairwise.cons hy hys)
      intro z hz
      rcases List.mem_cons.mp hz with rfl | hz2
      · rcases lt_or_eq_of_le h with hlt | heq
        · exact Or.inl hlt
        · exact Or.inr ⟨heq.symm, hx z (by simp)⟩
      · have hzle : z.weighted_score ≤ y.weighted_score := by
          rcases hy z hz2 with h1 | h2
          · exact le_of_lt h1
          · exact le_of_eq h2.1.symm
        rcases lt_or_eq_of_le (le_trans hzle h) with hlt | heq
        · exact Or.inl hlt
        · exact Or.inr ⟨heq.symm, hx z (by simp [hz2])⟩
    · refine List.Pairwise.cons ?_ (ih hys (fun z hz => hx z (by simp [hz])))
      intro z hz
      rcases mem_insertDesc.mp hz with rfl | hz2
      · exact Or.inl (lt_of_not_ge h)
      · exact hy z hz2

lemma pairwise_sortDesc {l : List BestEntry}
    (h : l.Pairwise fun a b => a.idx < b.idx) :
    (sortDesc l).Pairwise bestOrder := by
  induction l with
  | nil => simp [sortDesc]
  | cons x xs ih =>
    rw [List.pairwise_cons] at h
    exact pairwise_insertDesc (ih h.2) (fun y hy => h.1 y (mem_sortDesc.mp hy))

/-- C9: `get_best_conversations` returns at most `limit` entries drawn
from the corpus traversal, each meeting the minimum-score threshold,
sorted descending by weighted score with ties kept in encounter order
(the encounter order is recorded by strictly increasing `idx` tags). -/
theorem C9_best_conversations_query (entries : List BestEntry) (min_score : ℚ)
    (limit : Nat) (hidx : entries.Pairwise fun a b => a.idx < b.idx) :
    (get_best_conversations entries min_score limit).length ≤ limit
    ∧ (∀ e ∈ get_best_conversations entries min_score limit,
        e ∈ entries ∧ min_score ≤ e.weighted_score)
    ∧ (get_best_conversations entries min_score limit).Pairwise bestOrder := by
  refine ⟨List.length_take_le _ _, ?_, ?_⟩
  · intro e he
    have h1 : e ∈ sortDesc (entries.filter fun e => e.weighted_score ≥ min_score) :=
      List.mem_of_mem_take he
    have h2 := List.mem_filter.mp (mem_sortDesc.mp h1)
    exact ⟨h2.1, by simpa using of_decide_eq_true h2.2⟩
  · exact (pairwise_sortDesc (hidx.filter _)).sublist (List.take_sublist _ _)

/-- Witness for C9 on a three-entry corpus traversal with a tie. -/
theorem C9_best_conversations_query_witness :
    (get_best_conversations
        [⟨0, 0.9, "u0", "a0", "s"⟩, ⟨1, 0.7, "u1", "a1", "s"⟩, ⟨2, 0.9, "u2", "a2", "s"⟩]
        0.8 2).length ≤ 2
    ∧ (∀ e ∈ get_best_conversations
        [⟨0, 0.9, "u0", "a0", "s"⟩, ⟨1, 0.7, "u1", "a1", "s"⟩, ⟨2, 0.9, "u2", "a2", "s"⟩]
        0.8 2, e ∈ [⟨0, 0.9, "u0", "a0", "s"⟩, ⟨1, 0.7, "u1", "a1", "s"⟩,
          (⟨2, 0.9, "u2", "a2", "s"⟩ : BestEntry)] ∧ (0.8:ℚ) ≤ e.weighted_score)
    ∧ (get_best_conversations
        [⟨0, 0.9, "u0", "a0", "s"⟩, ⟨1, 0.7, "u1", "a1", "s"⟩, ⟨2, 0.9, "u2", "a2", "s"⟩]
        0.8 2).Pairwise bestOrder :=
  C9_best_conversations_query
    [⟨0, 0.9, "u0", "a0", "s"⟩, ⟨1, 0.7, "u1", "a1", "s"⟩, ⟨2, 0.9, "u2", "a2", "s"⟩]
    0.8 2 (by simp)

/-- A per-pair weighted-score sequence whose mean (2239/2800 ≈ 0.7996)
lies just below the 0.8 grade threshold: eleven pairs scoring 0.805 and
three scoring 0.78, both attainable weighted scores. -/
def scoresC10 : List ℚ :=
  [0.805, 0.805, 0.805, 0.805, 0.805, 0.805, 0.805, 0.805, 0.805, 0.805,
   0.805, 0.78, 0.78, 0.78]

/-- C10: in a session result the letter grade is assigned from the
unrounded mean of per-pair weighted scores, while the reported
overall_score is that mean rounded to 3 decimal places; for score
sequences whose mean lies just below the 0.8 threshold the reported
score rounds up onto the threshold (grade `A` side) while the grade
stays `B`. -/
theorem C10_grade_unrounded_report_rounded (research : String → String → Bool)
    (file content : String) (h : ¬ (extract_conversations content = [])) :
    ((analyze_log_file research file content).grade
        = assign_grade (mean ((extract_conversations content).map fun p =>
            calculate_weighted_score (score_response research p.1 p.2)))
      ∧ (analyze_log_file research file content).overall_score
        = round3 (mean ((extract_conversations content).map fun p =>
            calculate_weighted_score (score_response research p.1 p.2))))
    ∧ (mean scoresC10 < 0.8
      ∧ round3 (mean scoresC10) = 0.8
      ∧ assign_grade (mean scoresC10) = "B"
      ∧ assign_grade (round3 (mean scoresC10)) = "A") := by
  constructor
  · unfold analyze_log_file
    rw [if_neg h]
    dsimp only
    constructor
    · congr 1
      simp only [List.map_map]
      rfl
    · congr 1
      simp only [List.map_map]
      rfl
  · have hmean : mean scoresC10 = 2239/2800 := by
      norm_num [scoresC10, mean]
    have hprod : (2239/2800 : ℚ) * 1000 = 11195/14 := by norm_num
    have hfl : ⌊(11195/14 : ℚ)⌋ = 799 := by
      rw [Int.floor_eq_iff]
      norm_num
    have hrhe : roundHalfEven ((2239/2800 : ℚ) * 1000) = 800 := by
      rw [hprod]
      unfold roundHalfEven
      rw [hfl]
      rw [if_neg (by norm_num), if_pos (by norm_num)]
      norm_num
    have hr3 : round3 (mean scoresC10) = 0.8 := by
      rw [hmean]
      unfold round3
      rw [hrhe]
      norm_num
    refine ⟨by rw [hmean]; norm_num, hr3, ?_, ?_⟩
    · rw [hmean]
      unfold assign_grade
      rw [if_neg (by norm_num), if_neg (by norm_num), if_pos (by norm_num)]
    · rw [hr3]
      unfold assign_grade
      rw [if_neg (by norm_num), if_pos (by norm_num)]

/-- Witness for C10 on a one-pair transcript with a concrete oracle. -/
theorem C10_grade_unrounded_report_rounded_witness :
    (analyze_log_file (fun _ _ => false) "session-1.log" "You: hi\nAI: hello.").grade
      = assign_grade (mean ((extract_conversations "You: hi\nAI: hello.").map fun p =>
          calculate_weighted_score
            (score_response (fun _ _ => false) p.1 p.2))) :=
  (C10_grade_unrounded_report_rounded (fun _ _ => false) "session-1.log"
    "You: hi\nAI: hello." (by decide)).1.1
